import Mathlib

/-!
Verification of the dcf-calculator server (src/server/routes/api.js) and its
client-side valuation engine (src/server/index.js, calculateDCF).

The embedding is a shallow one over exact rational arithmetic (Lean `Rat`
standing in for JavaScript numbers), with stateful DOM scraping modelled as
pure functions over explicit document structures (row lists, cell lists,
header/page text) and fallible network fetches modelled as `Except Unit`
values carried in an environment record.
-/

deriving instance DecidableEq for Except

set_option allowUnsafeReducibility true

attribute [semireducible] Rat.add Rat.mul Rat.sub Rat.inv Rat.ofScientific Rat.div

namespace DCFCalc

/-! ## String utilities -/

/-- Model of String.prototype.trim: whitespace removed from both ends. -/
def jsTrim (s : String) : String :=
  String.mk (((s.toList.dropWhile Char.isWhitespace).reverse.dropWhile
    Char.isWhitespace).reverse)

/-- Model of String.prototype.toLowerCase (ASCII letters). -/
def jsToLower (s : String) : String :=
  String.mk (s.toList.map Char.toLower)

/-- Model of String.prototype.toUpperCase (ASCII letters). -/
def jsToUpper (s : String) : String :=
  String.mk (s.toList.map Char.toUpper)

/-- Model of String.prototype.split at a one-character separator. -/
def splitOnChar (sep : Char) : List Char → List (List Char)
  | [] => [[]]
  | c :: rest =>
    let r := splitOnChar sep rest
    if c = sep then [] :: r
    else
      match r with
      | h :: t => (c :: h) :: t
      | [] => [[c]]

/-- Substring containment, the model of JavaScript String.prototype.includes:
pat occurs contiguously in hay. -/
def containsSub (hay pat : String) : Bool :=
  hay.toList.tails.any (fun t => pat.toList.isPrefixOf t)

/-- Remove the first case-insensitive occurrence of pat from s (both given as
character lists); the model of JavaScript String.prototype.replace with a
non-global case-insensitive literal regex and an empty replacement. -/
def removeFirstCIList (pat : List Char) : List Char → List Char
  | [] => []
  | c :: rest =>
    if (pat.map Char.toLower).isPrefixOf ((c :: rest).map Char.toLower) then
      (c :: rest).drop pat.length
    else c :: removeFirstCIList pat rest

/-- Remove the first case-insensitive occurrence of "(ticker)" from s, the
model of companyName.replace(new RegExp(escaped paren ticker, i-flag), ''). -/
def removeParenTicker (ticker s : String) : String :=
  String.mk (removeFirstCIList ("(" ++ ticker ++ ")").toList s.toList)

/-! ## Numeric parsing (api.js extractNumber, lines 83-91) -/

/-- Value of a digit string, most significant digit first. -/
def digitsVal (l : List Char) : Nat :=
  l.foldl (fun acc c => acc * 10 + (c.toNat - '0'.toNat)) 0

/-- Value of a fractional digit string: digits d1 d2 ... dn denote
0.d1d2...dn. -/
def fracVal (l : List Char) : ℚ :=
  (digitsVal l : ℚ) / (10 : ℚ) ^ l.length

/-- Model of JavaScript parseFloat, restricted to the inputs it receives in
api.js: strings over digits, '.' and '-' (the caller has already stripped
every other character, so whitespace skipping and exponent notation are
unreachable and omitted).  parseFloat reads an optional sign, then the
longest prefix of the form digits [ '.' digits ]; if that prefix contains no
digit at all the result is NaN, modelled as none. -/
def jsParseFloat (s : String) : Option ℚ :=
  let l := s.toList
  let sgn : ℚ := match l with
    | '-' :: _ => -1
    | _ => 1
  let l1 : List Char := match l with
    | '-' :: t => t
    | '+' :: t => t
    | _ => l
  let ip := l1.takeWhile Char.isDigit
  let r1 := l1.dropWhile Char.isDigit
  let fp : List Char := match r1 with
    | '.' :: t => t.takeWhile Char.isDigit
    | _ => []
  if ip.isEmpty && fp.isEmpty then none
  else some (sgn * ((digitsVal ip : ℚ) + fracVal fp))

/-- api.js extractNumber: a falsy (empty) text yields null; otherwise every
character except digits, '.' and '-' is removed and the remainder is parsed
with parseFloat, an unparseable remainder (NaN) yielding null. -/
def extractNumber (text : String) : Option ℚ :=
  if text = "" then none
  else
    let numericText := String.mk (text.toList.filter
      (fun c => c.isDigit || c = '.' || c = '-'))
    jsParseFloat numericText

/-! ## Number formatting (api.js formatNumberWithCommas, lines 94-112) -/

/-- Rounding used by toLocaleString (Intl default rounding mode halfExpand):
round to the nearest integer, ties away from zero. -/
def roundHalfExpand (q : ℚ) : ℤ :=
  if q < 0 then -(Rat.floor (-q + 1/2)) else Rat.floor (q + 1/2)

/-- Insert a comma after every three characters of a reversed digit list
(thousands grouping, working from the least significant digit). -/
def groupRev : List Char → List Char
  | a :: b :: c :: rest =>
    match rest with
    | [] => [a, b, c]
    | _ :: _ => a :: b :: c :: ',' :: groupRev rest
  | l => l

/-- Decimal rendering of a natural number with en-US thousands separators. -/
def natToCommaString (n : Nat) : String :=
  String.mk (groupRev (toString n).toList.reverse).reverse

/-- Model of number.toLocaleString('en-US') with minimumFractionDigits 0 and
maximumFractionDigits 2: round to two decimal places (ties away from zero),
drop trailing fraction zeros, group the integer part by thousands. -/
def toLocaleMax2 (q : ℚ) : String :=
  let r := roundHalfExpand (q * 100)
  let neg := r < 0
  let m := r.natAbs
  let ip := m / 100
  let fr := m % 100
  let frStr : String :=
    if fr = 0 then ""
    else if fr % 10 = 0 then "." ++ toString (fr / 10)
    else if fr < 10 then ".0" ++ toString fr
    else "." ++ toString fr
  (if neg then "-" else "") ++ natToCommaString ip ++ frStr

/-- api.js formatNumberWithCommas: null (and NaN, both modelled as none)
formats as N/A; otherwise magnitudes of at least 1e9 are scaled down and
suffixed b, magnitudes of at least 1e6 scaled down and suffixed m, and the
scaled number is rendered with toLocaleString (0 to 2 fraction digits). -/
def formatNumberWithCommas : Option ℚ → String
  | none => "N/A"
  | some n0 =>
    let p : ℚ × String :=
      if 1000000000 ≤ |n0| then (n0 / 1000000000, "b")
      else if 1000000 ≤ |n0| then (n0 / 1000000, "m")
      else (n0, "")
    toLocaleMax2 p.1 ++ p.2

/-! ## Document model

A scraped page is modelled by the parts the extractors inspect: row-like
elements (first-column label text and second-column value text, as returned
by the cheerio selectors in api.js), individual cells with their adjacent
cell (for the shares-outstanding unstructured fallback), header text and
whole-page text (for currency detection), and the title/header elements used
by getCompanyName. -/

/-- A row-like element: the text of its first column (label) and of its
second column (value). -/
structure Row where
  label : String
  value : String
deriving DecidableEq

/-- A table cell together with the text of its next sibling cell. -/
structure Cell where
  text : String
  nextText : String
deriving DecidableEq

/-- The parts of the financials page read by detectReportingCurrency. -/
structure CurrencyDoc where
  headerText : String
  pageText : String
deriving DecidableEq

/-- The parts of the financials page read by getSharesOutstanding. -/
structure SharesDoc where
  rows : List Row
  cells : List Cell
deriving DecidableEq

/-- The parts of the overview page read by getCompanyName. -/
structure NameDoc where
  title : String
  headerName : String
  headers : List String
deriving DecidableEq

/-- The parts of the overview page read by the price-scraping fallback of
getCurrentPrice: for each of the five price selectors in order, none when
the selector matches no element and some text when it does. -/
structure PriceDoc where
  priceTexts : List (Option String)
deriving DecidableEq

/-! ## Free cash flow extraction (api.js getFreeCashFlow, lines 115-176) -/

/-- First tier: the first row whose trimmed first-column label is exactly
"Free Cash Flow"; its second-column value is extracted (the loop breaks at
that row even when extraction yields null). -/
def fcfTier1 (rows : List Row) : Option ℚ :=
  match rows.find? (fun r => jsTrim r.label = "Free Cash Flow") with
  | some r => extractNumber (jsTrim r.value)
  | none => none

/-- Second tier: the first row whose lower-cased label contains
"free cash flow" as a substring. -/
def fcfTier2 (rows : List Row) : Option ℚ :=
  match rows.find? (fun r =>
      containsSub (jsToLower (jsTrim r.label)) "free cash flow") with
  | some r => extractNumber (jsTrim r.value)
  | none => none

/-- Third tier: scan every row (no break), keeping the last extraction for
operating cash flow and for capital expenditures; when both were found,
free cash flow is operating cash flow minus the absolute value of capital
expenditures. -/
def fcfTier3 (rows : List Row) : Option ℚ :=
  let st := rows.foldl (fun (st : Option ℚ × Option ℚ) r =>
    let lbl := jsToLower (jsTrim r.label)
    let v := jsTrim r.value
    if containsSub lbl "operating cash flow" || containsSub lbl "cash from operations"
        || containsSub lbl "net cash provided by operating activities" then
      (extractNumber v, st.2)
    else if containsSub lbl "capital expenditure" || containsSub lbl "capex"
        || containsSub lbl "purchases of property and equipment" then
      (st.1, extractNumber v)
    else st) (none, none)
  match st with
  | (some ocf, some capex) => some (ocf - |capex|)
  | _ => none

/-- api.js getFreeCashFlow applied to the fetched cash-flow-statement rows:
the three tiers in order, the first non-null result winning; if every tier
yields null the function throws (Failed to parse Free Cash Flow data),
modelled as Except.error. -/
def getFreeCashFlow (rows : List Row) : Except Unit ℚ :=
  let fcf := match fcfTier1 rows with
    | some v => some v
    | none => match fcfTier2 rows with
      | some v => some v
      | none => fcfTier3 rows
  match fcf with
  | some v => Except.ok v
  | none => Except.error ()

/-! ## Balance sheet extraction (api.js getBalanceSheetData, lines 179-249) -/

/-- api.js getBalanceSheetData applied to the fetched balance-sheet rows.
First pass (no break): the last row labelled like cash-and-equivalents sets
cash, the last row containing "total debt" sets debt.  If cash is still
null, the first row containing "cash" but not "flow" is used.  If debt is
still null, a scan collects long-term and short-term debt and sums them
(short-term optional).  A null cash or null debt throws, modelled as
Except.error. -/
def getBalanceSheetData (rows : List Row) : Except Unit (ℚ × ℚ) :=
  let st := rows.foldl (fun (st : Option ℚ × Option ℚ) r =>
    let lbl := jsToLower (jsTrim r.label)
    let v := jsTrim r.value
    if containsSub lbl "cash and cash equivalents" || lbl = "cash and equivalents"
        || lbl = "cash & equivalents" then
      (extractNumber v, st.2)
    else if containsSub lbl "total debt" then
      (st.1, extractNumber v)
    else st) (none, none)
  let cash2 := match st.1 with
    | some c => some c
    | none =>
      match rows.find? (fun r =>
          let lbl := jsToLower (jsTrim r.label)
          containsSub lbl "cash" && !(containsSub lbl "flow")) with
      | some r => extractNumber (jsTrim r.value)
      | none => none
  let debt2 := match st.2 with
    | some dd => some dd
    | none =>
      let st2 := rows.foldl (fun (st : Option ℚ × Option ℚ) r =>
        let lbl := jsToLower (jsTrim r.label)
        let v := jsTrim r.value
        if containsSub lbl "long-term debt" || containsSub lbl "long term debt" then
          (extractNumber v, st.2)
        else if containsSub lbl "short-term debt" || containsSub lbl "short term debt"
            || containsSub lbl "current portion of long-term debt" then
          (st.1, extractNumber v)
        else st) (none, none)
      match st2.1 with
      | some lt => some (lt + (match st2.2 with | some s => s | none => 0))
      | none => none
  match cash2, debt2 with
  | some c, some dd => Except.ok (c, dd)
  | _, _ => Except.error ()

/-! ## Shares outstanding extraction (api.js getSharesOutstanding, 252-309) -/

/-- Unstructured fallback tier: the first cell whose lower-cased trimmed text
contains "shares" and "outstanding" but not "treasury" and whose adjacent
value (the next cell's trimmed text, or the cell text itself when that is
empty) extracts to a number greater than 1,000,000. -/
def sharesTier3 (cells : List Cell) : Option ℚ :=
  cells.findSome? (fun c =>
    let cellText := jsToLower (jsTrim c.text)
    if containsSub cellText "shares" && containsSub cellText "outstanding"
        && !(containsSub cellText "treasury") then
      let valueText := if jsTrim c.nextText = "" then cellText else jsTrim c.nextText
      match extractNumber valueText with
      | some v => if 1000000 < v then some v else none
      | none => none
    else none)

/-- api.js getSharesOutstanding applied to the fetched financials page:
diluted-shares labels first, then plain shares-outstanding labels, then the
unstructured cell scan; exhausting all three throws, modelled as
Except.error. -/
def getSharesOutstanding (d : SharesDoc) : Except Unit ℚ :=
  let t1 := match d.rows.find? (fun r =>
      let lbl := jsToLower (jsTrim r.label)
      containsSub lbl "shares outstanding (diluted)"
        || containsSub lbl "diluted shares outstanding"
        || containsSub lbl "weighted average shares diluted") with
    | some r => extractNumber (jsTrim r.value)
    | none => none
  let t2 := match t1 with
    | some v => some v
    | none => match d.rows.find? (fun r =>
        let lbl := jsToLower (jsTrim r.label)
        containsSub lbl "shares outstanding" || containsSub lbl "common shares outstanding") with
      | some r => extractNumber (jsTrim r.value)
      | none => none
  let t3 := match t2 with
    | some v => some v
    | none => sharesTier3 d.cells
  match t3 with
  | some v => Except.ok v
  | none => Except.error ()

/-! ## Company name (api.js getCompanyName, lines 374-418) -/

/-- api.js getCompanyName: the page title split on the pipe character (first
part, trimmed, when there are at least two parts); else the header element
text with "(TICKER)" removed; else the first plausible header element (text
of length between 2 and 99 not containing http or www, with "(TICKER)"
removed, nonempty after removal).  An empty (falsy) result throws, modelled
as Except.error. -/
def getCompanyName (ticker : String) (d : NameDoc) : Except Unit String :=
  let n1 : String :=
    if d.title ≠ "" then
      match (splitOnChar '|' d.title.toList).map String.mk with
      | p :: _ :: _ => jsTrim p
      | _ => ""
    else ""
  let n2 : String :=
    if n1 = "" then jsTrim (removeParenTicker ticker (jsTrim d.headerName))
    else n1
  let n3 : String :=
    if n2 = "" then
      match d.headers.findSome? (fun t0 =>
        let text := jsTrim t0
        if text ≠ "" && 1 < text.length && text.length < 100
            && !(containsSub text "http") && !(containsSub text "www") then
          let clean := jsTrim (removeParenTicker ticker text)
          if clean ≠ "" then some clean else none
        else none) with
      | some c => c
      | none => ""
    else n2
  if n3 = "" then Except.error () else Except.ok n3

/-! ## Current price (api.js getCurrentPrice, lines 312-371) -/

/-- The inputs of getCurrentPrice: the Yahoo quote call (error when the HTTP
request throws, ok none when the response lacks a truthy
regularMarketPrice, ok (some p) when it carries price p — p equal to 0 is
falsy and also falls through), and the overview-page fetch used by the
scraping fallback. -/
structure PriceEnv where
  yahoo : Except Unit (Option ℚ)
  overview : Except Unit PriceDoc
deriving DecidableEq

/-- The fallback branch of getCurrentPrice: fetch the overview page and try
the five price selectors in order, accepting the first extracted value
strictly greater than zero; no acceptable value throws Failed to parse
Current Price, modelled as Except.error. -/
def priceFallback (overview : Except Unit PriceDoc) : Except Unit ℚ :=
  match overview with
  | Except.error _ => Except.error ()
  | Except.ok d =>
    match d.priceTexts.findSome? (fun t? => t?.bind (fun t =>
        match extractNumber (jsTrim t) with
        | some v => if 0 < v then some v else none
        | none => none)) with
    | some v => Except.ok v
    | none => Except.error ()

/-- api.js getCurrentPrice: the Yahoo quote price when present and truthy
(nonzero); otherwise the overview-scraping fallback.  Any thrown error
(Yahoo HTTP failure included — the whole body sits in one try/catch that
rethrows) is surfaced as Except.error. -/
def getCurrentPrice (pe : PriceEnv) : Except Unit ℚ :=
  match pe.yahoo with
  | Except.error _ => Except.error ()
  | Except.ok yp =>
    match yp with
    | some p => if p ≠ 0 then Except.ok p else priceFallback pe.overview
    | none => priceFallback pe.overview

/-! ## Currency detection (api.js detectReportingCurrency, lines 421-469) -/

/-- The fixed keyword table mapping currency codes to phrase variants,
exactly as written in api.js (object-literal iteration order). -/
def currencyPatterns : List (String × List String) :=
  [("TWD", ["millions twd", "twd millions", "million twd", "ntd",
            "new taiwan dollar", "taiwan dollar"]),
   ("CNY", ["millions cny", "cny millions", "million cny", "rmb", "yuan",
            "chinese yuan"]),
   ("JPY", ["millions jpy", "jpy millions", "million jpy", "yen",
            "japanese yen"]),
   ("EUR", ["millions eur", "eur millions", "million eur", "€", "euro"]),
   ("GBP", ["millions gbp", "gbp millions", "million gbp", "£",
            "british pound"]),
   ("HKD", ["millions hkd", "hkd millions", "million hkd",
            "hong kong dollar"])]

/-- One pass of the keyword loop: the first table entry one of whose
patterns occurs in the given (already lower-cased) text, if any. -/
def keywordScan (text : String) : Option String :=
  (currencyPatterns.find? (fun e => e.2.any (fun pat => containsSub text pat))).map
    Prod.fst

/-- The literal part of the regex financials in millions ([a-z]\x7b3\x7d). -/
def millionsPat : List Char := "financials in millions ".toList

/-- A character matched by the class [a-z] under the i flag. -/
def isRegexLetter (c : Char) : Bool :=
  ('a' ≤ c && c ≤ 'z') || ('A' ≤ c && c ≤ 'Z')

/-- Leftmost match of /financials in millions ([a-z]\x7b3\x7d)/i over the page
text, returning the three captured letters; a position where the literal
prefix matches but fewer than three letters follow is skipped, as the regex
engine resumes the search at the next position. -/
def findMillionsCode (l : List Char) : Option String :=
  match l with
  | [] => none
  | c :: rest =>
    if millionsPat.isPrefixOf (c :: rest) then
      match (c :: rest).drop millionsPat.length with
      | a :: b :: c3 :: _ =>
        if isRegexLetter a && isRegexLetter b && isRegexLetter c3 then
          some (String.mk [a, b, c3])
        else findMillionsCode rest
      | _ => findMillionsCode rest
    else findMillionsCode rest

/-- api.js detectReportingCurrency applied to the fetched financials page:
default USD; first matching keyword-table entry against the lower-cased
header text, else against the lower-cased whole-page text; finally the
financials-in-millions regex capture, upper-cased, overrides the result
when it is one of the table's keys. -/
def detectReportingCurrency (d : CurrencyDoc) : String :=
  let headerText := jsToLower d.headerText
  let pageText := jsToLower d.pageText
  let currency := match keywordScan headerText with
    | some c => c
    | none => match keywordScan pageText with
      | some c => c
      | none => "USD"
  match findMillionsCode pageText.toList with
  | some code =>
    let detectedCurrency := jsToUpper code
    if detectedCurrency ∈ currencyPatterns.map Prod.fst then detectedCurrency
    else currency
  | none => currency

/-! ## Exchange rate (api.js getExchangeRate, lines 472-505) -/

/-- The result shape of getExchangeRate (the timestamp field, a wall-clock
reading, is outside the embedding). -/
structure RateResult where
  rate : ℚ
  fromCurrency : String
  toCurrency : String
  error : Bool
deriving DecidableEq

/-- api.js getExchangeRate: USD short-circuits to rate 1 without touching
the rate feed; otherwise the feed's USD-based table is consulted and
inverted, and a feed failure is absorbed into rate 1 with the error flag
set — the caller never sees a thrown error. -/
def getExchangeRate (fromCurrency : String) (feed : Except Unit (String → ℚ)) :
    RateResult :=
  if fromCurrency = "USD" then
    { rate := 1, fromCurrency := "USD", toCurrency := "USD", error := false }
  else
    match feed with
    | Except.ok rates =>
      { rate := 1 / rates fromCurrency, fromCurrency := fromCurrency,
        toCurrency := "USD", error := false }
    | Except.error _ =>
      { rate := 1, fromCurrency := fromCurrency, toCurrency := "USD",
        error := true }

/-! ## The stock endpoint (api.js router.get /stock/:ticker, lines 508-582) -/

/-- The regex test /^[A-Z]\x7b1,5\x7d$/.test(s): one to five ASCII capital
letters and nothing else. -/
def tickerValid (s : String) : Bool :=
  decide (1 ≤ s.length) && decide (s.length ≤ 5)
    && s.toList.all (fun c => decide ('A' ≤ c) && decide (c ≤ 'Z'))

/-- The response payload assembled by the endpoint (sourceUrls, which merely
echo the fetched URLs, are outside the embedding). -/
structure StockSnapshot where
  companyName : String
  ticker : String
  reportingCurrency : String
  exchangeRate : ℚ
  currentPrice : ℚ
  formattedCurrentPrice : String
  freeCashFlow : ℚ
  freeCashFlowUSD : ℚ
  formattedFreeCashFlow : String
  formattedFreeCashFlowUSD : String
  cashAndEquivalents : ℚ
  cashAndEquivalentsUSD : ℚ
  formattedCashAndEquivalents : String
  formattedCashAndEquivalentsUSD : String
  totalDebt : ℚ
  totalDebtUSD : ℚ
  formattedTotalDebt : String
  formattedTotalDebtUSD : String
  sharesOutstanding : ℚ
  formattedSharesOutstanding : String
deriving DecidableEq

/-- An HTTP response of the endpoint: success true with a data payload, or
success false with a status and no data. -/
inductive ApiResponse where
  | success (data : StockSnapshot)
  | failure (status : Nat)
deriving DecidableEq

/-- Whether a response is the success shape. -/
def isSuccessResp : ApiResponse → Bool
  | ApiResponse.success _ => true
  | ApiResponse.failure _ => false

/-- The network environment of one request: the outcome of each document
fetch and of the two structured feeds.  Each field is the result the
corresponding HTTP call would deliver (Except.error for a thrown fetch
error). -/
structure Env where
  currencyDoc : Except Unit CurrencyDoc
  rateFeed : Except Unit (String → ℚ)
  nameDoc : Except Unit NameDoc
  priceEnv : PriceEnv
  fcfDoc : Except Unit (List Row)
  bsDoc : Except Unit (List Row)
  sharesDoc : Except Unit SharesDoc

/-- The snapshot-building pipeline of the endpoint body: currency detection,
exchange-rate resolution, then the five field extractions (run with
Promise.all in the source; sequencing them is result-equivalent since any
single rejection rejects the join), then USD conversion and assembly.  Any
thrown error escapes to the catch handler, modelled as Except.error. -/
def buildSnapshot (ticker : String) (env : Env) : Except Unit StockSnapshot :=
  match env.currencyDoc with
  | Except.error e => Except.error e
  | Except.ok cdoc =>
    let reportingCurrency := detectReportingCurrency cdoc
    let er := getExchangeRate reportingCurrency env.rateFeed
    match env.nameDoc with
    | Except.error e => Except.error e
    | Except.ok ndoc =>
      match getCompanyName ticker ndoc with
      | Except.error e => Except.error e
      | Except.ok companyName =>
        match getCurrentPrice env.priceEnv with
        | Except.error e => Except.error e
        | Except.ok currentPrice =>
          match env.fcfDoc with
          | Except.error e => Except.error e
          | Except.ok fcfRows =>
            match getFreeCashFlow fcfRows with
            | Except.error e => Except.error e
            | Except.ok freeCashFlow =>
              match env.bsDoc with
              | Except.error e => Except.error e
              | Except.ok bsRows =>
                match getBalanceSheetData bsRows with
                | Except.error e => Except.error e
                | Except.ok bs =>
                  match env.sharesDoc with
                  | Except.error e => Except.error e
                  | Except.ok sdoc =>
                    match getSharesOutstanding sdoc with
                    | Except.error e => Except.error e
                    | Except.ok sharesOutstanding =>
                      let convertToUSD := fun (v : ℚ) => v * er.rate
                      Except.ok
                        { companyName := companyName
                          ticker := ticker
                          reportingCurrency := reportingCurrency
                          exchangeRate := er.rate
                          currentPrice := currentPrice
                          formattedCurrentPrice :=
                            formatNumberWithCommas (some currentPrice)
                          freeCashFlow := freeCashFlow
                          freeCashFlowUSD := convertToUSD freeCashFlow
                          formattedFreeCashFlow :=
                            formatNumberWithCommas (some freeCashFlow) ++ " "
                              ++ reportingCurrency
                          formattedFreeCashFlowUSD :=
                            "$" ++ formatNumberWithCommas (some (convertToUSD freeCashFlow))
                          cashAndEquivalents := bs.1
                          cashAndEquivalentsUSD := convertToUSD bs.1
                          formattedCashAndEquivalents :=
                            formatNumberWithCommas (some bs.1) ++ " " ++ reportingCurrency
                          formattedCashAndEquivalentsUSD :=
                            "$" ++ formatNumberWithCommas (some (convertToUSD bs.1))
                          totalDebt := bs.2
                          totalDebtUSD := convertToUSD bs.2
                          formattedTotalDebt :=
                            formatNumberWithCommas (some bs.2) ++ " " ++ reportingCurrency
                          formattedTotalDebtUSD :=
                            "$" ++ formatNumberWithCommas (some (convertToUSD bs.2))
                          sharesOutstanding := sharesOutstanding
                          formattedSharesOutstanding :=
                            formatNumberWithCommas (some sharesOutstanding) }

/-- The endpoint handler: the raw path parameter is upper-cased, the regex
validation runs on the upper-cased ticker (an invalid format is a 400
client error produced before any fetch), and any error thrown by the
pipeline reaches handleError, which for the Failed-to-parse and
Failed-to-fetch errors this pipeline throws produces a 503 failure body
with success false and no data. -/
def stockEndpoint (rawTicker : String) (env : Env) : ApiResponse :=
  let ticker := jsToUpper rawTicker
  if tickerValid ticker = false then ApiResponse.failure 400
  else
    match buildSnapshot ticker env with
    | Except.ok s => ApiResponse.success s
    | Except.error _ => ApiResponse.failure 503

/-! ## Valuation engine (index.js calculateDCF, lines 215-295) -/

/-- The user parameter set, all in percent. -/
structure DCFInputs where
  growthRate1to5 : ℚ
  perpetualGrowthRate : ℚ
  discountRate : ℚ
  marginOfSafety : ℚ
deriving DecidableEq

/-- The result record set by calculateDCF. -/
structure DCFResults where
  fairValue : ℚ
  safetyMarginValue : ℚ
  enterpriseValue : ℚ
  equityValue : ℚ
  yearlyProjections : List ℚ
  isPotentialBuy : Bool
  originalCurrency : String
  fairValueInOriginalCurrency : ℚ
  exchangeRate : ℚ
deriving DecidableEq

/-- index.js calculateDCF over exact rational arithmetic.  The two
five-iteration for-loops (projection push and present-value accumulation)
are unrolled; Math.pow is the rational power.  There is no guard anywhere:
in particular the terminal value divides by
discountRateDecimal - perpetualGrowthRateDecimal unconditionally. -/
def calculateDCF (sd : StockSnapshot) (inp : DCFInputs) : DCFResults :=
  let growthRateDecimal := inp.growthRate1to5 / 100
  let perpetualGrowthRateDecimal := inp.perpetualGrowthRate / 100
  let discountRateDecimal := inp.discountRate / 100
  let marginOfSafetyDecimal := inp.marginOfSafety / 100
  let y1 := sd.freeCashFlow * (1 + growthRateDecimal)
  let y2 := y1 * (1 + growthRateDecimal)
  let y3 := y2 * (1 + growthRateDecimal)
  let y4 := y3 * (1 + growthRateDecimal)
  let y5 := y4 * (1 + growthRateDecimal)
  let yearlyProjections := [y1, y2, y3, y4, y5]
  let terminalValue := y5 * (1 + perpetualGrowthRateDecimal) /
    (discountRateDecimal - perpetualGrowthRateDecimal)
  let presentValue :=
    y1 / (1 + discountRateDecimal) ^ 1 + y2 / (1 + discountRateDecimal) ^ 2
      + y3 / (1 + discountRateDecimal) ^ 3 + y4 / (1 + discountRateDecimal) ^ 4
      + y5 / (1 + discountRateDecimal) ^ 5
  let presentTerminalValue := terminalValue / (1 + discountRateDecimal) ^ 5
  let enterpriseValue := presentValue + presentTerminalValue
  let equityValue := enterpriseValue + sd.cashAndEquivalents - sd.totalDebt
  let fairValueInOriginalCurrency := equityValue / sd.sharesOutstanding
  let fairValue := fairValueInOriginalCurrency * sd.exchangeRate
  let safetyMarginValue := fairValue * (1 - marginOfSafetyDecimal)
  let isPotentialBuy := decide (sd.currentPrice < safetyMarginValue)
  { fairValue := fairValue
    safetyMarginValue := safetyMarginValue
    enterpriseValue := enterpriseValue
    equityValue := equityValue
    yearlyProjections := yearlyProjections
    isPotentialBuy := isPotentialBuy
    originalCurrency := sd.reportingCurrency
    fairValueInOriginalCurrency := fairValueInOriginalCurrency
    exchangeRate := sd.exchangeRate }

/-- The enterprise-value formula the specification states: the five yearly
projections discounted at the discount rate, plus the terminal value
(year-five projection grown one perpetual-growth step and divided by the
rate spread) discounted over five years. -/
def evFormula (f g p d : ℚ) : ℚ :=
  f * (1 + g) / (1 + d) + f * (1 + g) ^ 2 / (1 + d) ^ 2
    + f * (1 + g) ^ 3 / (1 + d) ^ 3 + f * (1 + g) ^ 4 / (1 + d) ^ 4
    + f * (1 + g) ^ 5 / (1 + d) ^ 5
    + (f * (1 + g) ^ 5 * (1 + p) / (d - p)) / (1 + d) ^ 5

/-! ## Concrete fixtures used by the theorems below -/

/-- The golden-fixture snapshot of the specification: freeCashFlow 100,
cash 50, debt 20, shares 10, exchange rate 1 (formatted strings and the
remaining fields are irrelevant to calculateDCF and filled arbitrarily). -/
def goldenSnapshot : StockSnapshot :=
  { companyName := "Golden", ticker := "GOLD", reportingCurrency := "USD",
    exchangeRate := 1, currentPrice := 0, formattedCurrentPrice := "0",
    freeCashFlow := 100, freeCashFlowUSD := 100,
    formattedFreeCashFlow := "100 USD", formattedFreeCashFlowUSD := "$100",
    cashAndEquivalents := 50, cashAndEquivalentsUSD := 50,
    formattedCashAndEquivalents := "50 USD",
    formattedCashAndEquivalentsUSD := "$50", totalDebt := 20,
    totalDebtUSD := 20, formattedTotalDebt := "20 USD",
    formattedTotalDebtUSD := "$20", sharesOutstanding := 10,
    formattedSharesOutstanding := "10" }

/-- The default parameter set of the client form: growth 10%, perpetual
growth 2.5%, discount 10%, margin of safety 25%. -/
def defaultInputs : DCFInputs := ⟨10, 2.5, 10, 25⟩

/-- A parameter set with discountRate (5) below perpetualGrowthRate (10). -/
def invertedInputs : DCFInputs := ⟨10, 10, 5, 25⟩

/-- A financials page announcing Taiwanese-dollar reporting. -/
def cdocTWD : CurrencyDoc := ⟨"", "Financials in millions TWD"⟩

/-- A financials page with no currency signal at all. -/
def cdocEmpty : CurrencyDoc := ⟨"", ""⟩

/-- A cash-flow statement where the exact-label tier, the substring tier
and the derived tier would each produce a different number. -/
def rowsBoth : List Row :=
  [⟨"Revenue", "5"⟩, ⟨"Free Cash Flow Margin", "200"⟩,
   ⟨"Free Cash Flow", "100"⟩, ⟨"Operating Cash Flow", "300"⟩,
   ⟨"Capital Expenditures", "-50"⟩]

/-- An overview page whose title carries the company name. -/
def ndocAcme : NameDoc := ⟨"Acme Inc. | Stock Analysis", "", []⟩

/-- A price environment where the Yahoo quote succeeds with price 50. -/
def priceEnvOk : PriceEnv := ⟨Except.ok (some 50), Except.error ()⟩

/-- A cash-flow statement carrying an exact Free Cash Flow row. -/
def fcfRowsOk : List Row := [⟨"Free Cash Flow", "100"⟩]

/-- A balance sheet carrying cash and total debt rows. -/
def bsRowsOk : List Row :=
  [⟨"Cash and Cash Equivalents", "50"⟩, ⟨"Total Debt", "20"⟩]

/-- A financials page carrying a diluted shares-outstanding row. -/
def sdocOk : SharesDoc := ⟨[⟨"Shares Outstanding (Diluted)", "10"⟩], []⟩

/-- An environment where every document fetch succeeds and every field
extraction can succeed, but the exchange-rate feed is down. -/
def envOk : Env :=
  ⟨Except.ok cdocTWD, Except.error (), Except.ok ndocAcme, priceEnvOk,
   Except.ok fcfRowsOk, Except.ok bsRowsOk, Except.ok sdocOk⟩

/-- An environment where the cash-flow statement fetch succeeds but the page
carries no usable rows, so the free-cash-flow extraction exhausts all its
tiers; the other sources are down. -/
def envBad : Env :=
  ⟨Except.error (), Except.error (), Except.error (),
   ⟨Except.error (), Except.error ()⟩, Except.ok [], Except.error (),
   Except.error ()⟩

/-! ## Helper lemmas -/

/-- A keyword-scan hit is always a key of the currency table. -/
lemma keywordScan_mem {t c : String} (h : keywordScan t = some c) :
    c ∈ currencyPatterns.map Prod.fst := by
  unfold keywordScan at h
  rcases Option.map_eq_some'.mp h with ⟨e, he, rfl⟩
  exact List.mem_map_of_mem Prod.fst (List.mem_of_find?_eq_some he)

/-- Every key of the currency table is one of the seven snapshot currency
codes. -/
lemma table_key_code {c : String} (hc : c ∈ currencyPatterns.map Prod.fst) :
    c ∈ ["USD", "TWD", "CNY", "JPY", "EUR", "GBP", "HKD"] := by
  have heq : currencyPatterns.map Prod.fst =
      ["TWD", "CNY", "JPY", "EUR", "GBP", "HKD"] := rfl
  rw [heq] at hc
  simp only [List.mem_cons, List.not_mem_nil, or_false] at hc
  rcases hc with rfl | rfl | rfl | rfl | rfl | rfl <;> decide

/-! ## Claim theorems -/

/-- Claim C4: extractNumber strips every character except digits, the dot
and the minus sign and hands the remainder to parseFloat (modelled by
jsParseFloat); the accounting string dollar-paren 1,234.56 parses to the
positive 1234.56 (parentheses dropped, sign not inverted); and whenever the
stripped remainder is unparseable — the empty input included — the result
is null (none), never a thrown error. -/
theorem extractNumber_strips_then_parses :
    (∀ s : String, extractNumber s =
      jsParseFloat (String.mk (s.toList.filter
        (fun c => c.isDigit || c = '.' || c = '-')))) ∧
    extractNumber "$(1,234.56)" = some (1234.56 : ℚ) ∧
    (∀ s : String,
      jsParseFloat (String.mk (s.toList.filter
        (fun c => c.isDigit || c = '.' || c = '-'))) = none →
      extractNumber s = none) := by
  have hall : ∀ s : String, extractNumber s =
      jsParseFloat (String.mk (s.toList.filter
        (fun c => c.isDigit || c = '.' || c = '-'))) := by
    intro s
    by_cases hs : s = ""
    · subst hs; rfl
    · simp [extractNumber, hs]
  refine ⟨hall, by decide, ?_⟩
  intro s h
  rw [hall s, h]

/-- Witness for C4 at a concrete unparseable input. -/
theorem extractNumber_strips_then_parses_witness :
    jsParseFloat (String.mk ("abc".toList.filter
      (fun c => c.isDigit || c = '.' || c = '-'))) = none ∧
    extractNumber "abc" = none :=
  ⟨by decide, extractNumber_strips_then_parses.2.2 "abc" (by decide)⟩

/-- Claim C7 counterexample: 1,500,000,000 does not format as the claimed
string 1.50b — with minimumFractionDigits 0 the trailing zero is dropped. -/
theorem formatNumber_billion_cex :
    formatNumberWithCommas (some 1500000000) ≠ "1.50b" := by decide

/-- Claim C7 (amended): the formatter maps 1,234,567 to 1.23m, maps
1,500,000,000 to 1.5b (not 1.50b: minimumFractionDigits is 0, so trailing
fraction zeros are dropped), and maps null or NaN input to N/A. -/
theorem formatNumber_examples :
    formatNumberWithCommas (some 1234567) = "1.23m" ∧
    formatNumberWithCommas (some 1500000000) = "1.5b" ∧
    formatNumberWithCommas none = "N/A" := by decide

/-- Claim C1: for every snapshot and parameter set, calculateDCF computes
exactly the stated formulas — the five yearly projections are the free cash
flow compounded at the growth rate, the enterprise value discounts them and
the terminal value (evFormula), the equity value adds cash and subtracts
debt, the fair value divides by shares and converts at the exchange rate,
the safety margin scales the fair value, and isPotentialBuy compares the
current price against it; on the golden fixture (freeCashFlow 100, growth
10, perpetual growth 2.5, discount 10, cash 50, debt 20, shares 10, rate 1)
the exact values are 5600/3, 5690/3 and 569/3. -/
theorem calculateDCF_formulas (sd : StockSnapshot) (inp : DCFInputs) :
    (calculateDCF sd inp).yearlyProjections =
      [sd.freeCashFlow * (1 + inp.growthRate1to5 / 100),
       sd.freeCashFlow * (1 + inp.growthRate1to5 / 100) ^ 2,
       sd.freeCashFlow * (1 + inp.growthRate1to5 / 100) ^ 3,
       sd.freeCashFlow * (1 + inp.growthRate1to5 / 100) ^ 4,
       sd.freeCashFlow * (1 + inp.growthRate1to5 / 100) ^ 5] ∧
    (calculateDCF sd inp).enterpriseValue =
      evFormula sd.freeCashFlow (inp.growthRate1to5 / 100)
        (inp.perpetualGrowthRate / 100) (inp.discountRate / 100) ∧
    (calculateDCF sd inp).equityValue =
      (calculateDCF sd inp).enterpriseValue + sd.cashAndEquivalents
        - sd.totalDebt ∧
    (calculateDCF sd inp).fairValue =
      (calculateDCF sd inp).equityValue / sd.sharesOutstanding
        * sd.exchangeRate ∧
    (calculateDCF sd inp).safetyMarginValue =
      (calculateDCF sd inp).fairValue * (1 - inp.marginOfSafety / 100) ∧
    ((calculateDCF sd inp).isPotentialBuy = true ↔
      sd.currentPrice < (calculateDCF sd inp).safetyMarginValue) ∧
    (calculateDCF goldenSnapshot defaultInputs).enterpriseValue = 5600 / 3 ∧
    (calculateDCF goldenSnapshot defaultInputs).equityValue = 5690 / 3 ∧
    (calculateDCF goldenSnapshot defaultInputs).fairValue = 569 / 3 := by
  refine ⟨?_, ?_, ?_, ?_, ?_, ?_, by decide, by decide, by decide⟩
  · simp only [calculateDCF, List.cons.injEq, and_true]
    refine ⟨by ring, by ring, by ring, by ring, by ring⟩
  · simp only [calculateDCF, evFormula]; ring
  · simp only [calculateDCF]
  · simp only [calculateDCF]
  · simp only [calculateDCF]
  · simp only [calculateDCF, decide_eq_true_eq]

/-- Claim C5: with discountRate at or below perpetualGrowthRate the
valuation is computed exactly as in the general case — no guard, clamp or
thrown error: the same unguarded formulas hold, the terminal-value division
by the non-positive rate spread included, and the result propagates into
enterprise, equity and fair value. -/
theorem calculateDCF_unguarded (sd : StockSnapshot) (inp : DCFInputs)
    (h : inp.discountRate ≤ inp.perpetualGrowthRate) :
    (calculateDCF sd inp).enterpriseValue =
      evFormula sd.freeCashFlow (inp.growthRate1to5 / 100)
        (inp.perpetualGrowthRate / 100) (inp.discountRate / 100) ∧
    (calculateDCF sd inp).equityValue =
      (calculateDCF sd inp).enterpriseValue + sd.cashAndEquivalents
        - sd.totalDebt ∧
    (calculateDCF sd inp).fairValue =
      (calculateDCF sd inp).equityValue / sd.sharesOutstanding
        * sd.exchangeRate ∧
    (calculateDCF sd inp).safetyMarginValue =
      (calculateDCF sd inp).fairValue * (1 - inp.marginOfSafety / 100) := by
  refine ⟨?_, ?_, ?_, ?_⟩
  · simp only [calculateDCF, evFormula]; ring
  · simp only [calculateDCF]
  · simp only [calculateDCF]
  · simp only [calculateDCF]

/-- Witness for C5: discount 5 below perpetual growth 10 on the golden
snapshot; the unguarded computation yields a negative fair value that
propagates as computed. -/
theorem calculateDCF_unguarded_witness :
    invertedInputs.discountRate ≤ invertedInputs.perpetualGrowthRate ∧
    ((calculateDCF goldenSnapshot invertedInputs).enterpriseValue =
      evFormula goldenSnapshot.freeCashFlow
        (invertedInputs.growthRate1to5 / 100)
        (invertedInputs.perpetualGrowthRate / 100)
        (invertedInputs.discountRate / 100) ∧
     (calculateDCF goldenSnapshot invertedInputs).equityValue =
      (calculateDCF goldenSnapshot invertedInputs).enterpriseValue
        + goldenSnapshot.cashAndEquivalents - goldenSnapshot.totalDebt ∧
     (calculateDCF goldenSnapshot invertedInputs).fairValue =
      (calculateDCF goldenSnapshot invertedInputs).equityValue
        / goldenSnapshot.sharesOutstanding * goldenSnapshot.exchangeRate ∧
     (calculateDCF goldenSnapshot invertedInputs).safetyMarginValue =
      (calculateDCF goldenSnapshot invertedInputs).fairValue
        * (1 - invertedInputs.marginOfSafety / 100)) ∧
    (calculateDCF goldenSnapshot invertedInputs).fairValue < 0 :=
  ⟨by decide,
   calculateDCF_unguarded goldenSnapshot invertedInputs (by decide),
   by decide⟩

/-- Claim C9: when the exact-label tier finds a row labelled exactly
Free Cash Flow whose value extracts to a number, the chain returns that
number and no later tier (substring, derived computation) overrides it. -/
theorem fcf_exact_tier_wins (rows : List Row) (v : ℚ)
    (h : fcfTier1 rows = some v) :
    getFreeCashFlow rows = Except.ok v := by
  simp [getFreeCashFlow, h]

/-- Witness for C9: a document carrying an exact Free Cash Flow row (100),
a broader substring-match row (200) and a derivable operating-cash-flow
minus capex pair (250): the chain returns the exact-label 100. -/
theorem fcf_exact_tier_wins_witness :
    fcfTier1 rowsBoth = some 100 ∧
    fcfTier2 rowsBoth = some 200 ∧
    getFreeCashFlow rowsBoth = Except.ok 100 :=
  ⟨by decide, by decide, fcf_exact_tier_wins rowsBoth 100 (by decide)⟩

/-- Claim C8: when the regex financials-in-millions capture over the page
text is the known code twd, detection returns TWD whatever else the
document contains; and detection never fails — a document with no keyword
hit in header or page and no regex match yields USD. -/
theorem currency_detection_twd_and_default :
    (∀ d : CurrencyDoc,
      findMillionsCode (jsToLower d.pageText).toList = some "twd" →
      detectReportingCurrency d = "TWD") ∧
    (∀ d : CurrencyDoc,
      keywordScan (jsToLower d.headerText) = none →
      keywordScan (jsToLower d.pageText) = none →
      findMillionsCode (jsToLower d.pageText).toList = none →
      detectReportingCurrency d = "USD") := by
  constructor
  · intro d h
    have hup : jsToUpper "twd" = "TWD" := rfl
    simp only [detectReportingCurrency, h, hup]
    rw [if_pos (by decide)]
  · intro d h1 h2 h3
    simp only [detectReportingCurrency, h1, h2, h3]

/-- Witness for C8: the TWD-announcing page detects TWD; the empty page
detects USD. -/
theorem currency_detection_twd_and_default_witness :
    (findMillionsCode (jsToLower cdocTWD.pageText).toList = some "twd" ∧
     detectReportingCurrency cdocTWD = "TWD") ∧
    (keywordScan (jsToLower cdocEmpty.headerText) = none ∧
     detectReportingCurrency cdocEmpty = "USD") :=
  ⟨⟨by decide, (currency_detection_twd_and_default).1 cdocTWD (by decide)⟩,
   ⟨by decide, (currency_detection_twd_and_default).2 cdocEmpty (by decide)
      (by decide) (by decide)⟩⟩

/-- Claim C10: for every document the detector's result is one of the seven
codes USD, TWD, CNY, JPY, EUR, GBP, HKD: the keyword table enumerates
exactly the six non-USD currencies and the regex override applies only when
the captured code is one of its keys. -/
theorem currency_detection_range (d : CurrencyDoc) :
    detectReportingCurrency d ∈ ["USD", "TWD", "CNY", "JPY", "EUR", "GBP", "HKD"] := by
  simp only [detectReportingCurrency]
  split
  · split
    · next hmem => exact table_key_code hmem
    · split
      · next c hc => exact table_key_code (keywordScan_mem hc)
      · split
        · next c hc => exact table_key_code (keywordScan_mem hc)
        · decide
  · split
    · next c hc => exact table_key_code (keywordScan_mem hc)
    · split
      · next c hc => exact table_key_code (keywordScan_mem hc)
      · decide

/-- Claim C3 counterexample: the endpoint upper-cases the path parameter
before validating, so the string aapl — which does not match the regex
one-to-five capitals — is not rejected: with every source healthy the
request proceeds all the way to a success response. -/
theorem ticker_validation_cex :
    tickerValid "aapl" = false ∧
    isSuccessResp (stockEndpoint "aapl" envOk) = true := by decide

/-- Claim C3 (amended): validation applies to the upper-cased ticker — when
the upper-cased input fails the regex the endpoint answers 400 without
consulting any source (the response is the same for every environment),
and when the upper-cased input passes the regex the request is never
rejected with a 400. -/
theorem ticker_validation_amended :
    (∀ (s : String) (env : Env), tickerValid (jsToUpper s) = false →
      stockEndpoint s env = ApiResponse.failure 400) ∧
    (∀ (s : String) (env env' : Env), tickerValid (jsToUpper s) = false →
      stockEndpoint s env = stockEndpoint s env') ∧
    (∀ (s : String) (env : Env), tickerValid (jsToUpper s) = true →
      stockEndpoint s env ≠ ApiResponse.failure 400) := by
  refine ⟨?_, ?_, ?_⟩
  · intro s env h
    simp [stockEndpoint, h]
  · intro s env env' h
    simp [stockEndpoint, h]
  · intro s env h
    cases hb : buildSnapshot (jsToUpper s) env with
    | ok s0 => simp [stockEndpoint, h, hb]
    | error e => simp [stockEndpoint, h, hb]

/-- Witness for the amended C3: the malformed AB1 is rejected with 400; the
lowercase aapl passes validation and is not rejected with 400. -/
theorem ticker_validation_amended_witness :
    tickerValid (jsToUpper "AB1") = false ∧
    stockEndpoint "AB1" envOk = ApiResponse.failure 400 ∧
    tickerValid (jsToUpper "aapl") = true ∧
    stockEndpoint "aapl" envOk ≠ ApiResponse.failure 400 :=
  ⟨by decide, ticker_validation_amended.1 "AB1" envOk (by decide), by decide,
   ticker_validation_amended.2.2 "aapl" envOk (by decide)⟩

/-- The snapshot pipeline yields an error whenever any one of the five field
extractions (company name, current price, free cash flow, balance sheet,
shares outstanding) fails — including when its underlying fetch fails. -/
lemma buildSnapshot_error_of_field_error (ticker : String) (env : Env)
    (h : Except.bind env.nameDoc (getCompanyName ticker) = Except.error ()
       ∨ getCurrentPrice env.priceEnv = Except.error ()
       ∨ Except.bind env.fcfDoc getFreeCashFlow = Except.error ()
       ∨ Except.bind env.bsDoc getBalanceSheetData = Except.error ()
       ∨ Except.bind env.sharesDoc getSharesOutstanding = Except.error ()) :
    buildSnapshot ticker env = Except.error () := by
  unfold buildSnapshot
  split
  · rfl
  next cdoc hc =>
  split
  · rfl
  next ndoc hn =>
  split
  · rfl
  next nm hcn =>
  split
  · rfl
  next pr hp =>
  split
  · rfl
  next fcfRows hf =>
  split
  · rfl
  next fv hfe =>
  split
  · rfl
  next bsRows hbd =>
  split
  · rfl
  next bsv hbe =>
  split
  · rfl
  next sdoc hs =>
  split
  · rfl
  next sh hse =>
  exfalso
  rcases h with h1 | h2 | h3 | h4 | h5
  · rw [hn] at h1
    simp [Except.bind, hcn] at h1
  · rw [hp] at h2
    exact Except.noConfusion h2
  · rw [hf] at h3
    simp [Except.bind, hfe] at h3
  · rw [hbd] at h4
    simp [Except.bind, hbe] at h4
  · rw [hs] at h5
    simp [Except.bind, hse] at h5

/-- Claim C2: for every request whose ticker passes validation, if any one
of the five field extractions ends in a (post-fallback) error, the endpoint
returns the failure response — status 503, success false — which carries no
data field: a partial snapshot is never returned. -/
theorem endpoint_all_or_nothing (rawTicker : String) (env : Env)
    (hv : tickerValid (jsToUpper rawTicker) = true)
    (h : Except.bind env.nameDoc (getCompanyName (jsToUpper rawTicker)) =
          Except.error ()
       ∨ getCurrentPrice env.priceEnv = Except.error ()
       ∨ Except.bind env.fcfDoc getFreeCashFlow = Except.error ()
       ∨ Except.bind env.bsDoc getBalanceSheetData = Except.error ()
       ∨ Except.bind env.sharesDoc getSharesOutstanding = Except.error ()) :
    stockEndpoint rawTicker env = ApiResponse.failure 503 := by
  have hb := buildSnapshot_error_of_field_error (jsToUpper rawTicker) env h
  simp [stockEndpoint, hv, hb]

/-- Witness for C2: a valid ticker whose cash-flow page has no usable rows,
so the free-cash-flow extraction exhausts every tier; the endpoint fails
with 503 and no data. -/
theorem endpoint_all_or_nothing_witness :
    tickerValid (jsToUpper "AAPL") = true ∧
    Except.bind envBad.fcfDoc getFreeCashFlow = Except.error () ∧
    stockEndpoint "AAPL" envBad = ApiResponse.failure 503 :=
  ⟨by decide, by decide,
   endpoint_all_or_nothing "AAPL" envBad (by decide)
     (Or.inr (Or.inr (Or.inl (by decide))))⟩

/-- Claim C6: the exchange-rate resolver never fails its caller — USD
short-circuits to rate 1 with the same answer whatever the feed would say
(no network dependence), a non-USD currency on feed failure yields rate 1
with the error flag set instead of a propagated failure, and a request
whose five extractions succeed still completes with a success response
carrying exchangeRate 1 even when the rate feed is down. -/
theorem exchange_rate_soft_degrade :
    (∀ feed : Except Unit (String → ℚ),
      getExchangeRate "USD" feed =
        { rate := 1, fromCurrency := "USD", toCurrency := "USD",
          error := false }) ∧
    (∀ c : String, c ≠ "USD" →
      getExchangeRate c (Except.error ()) =
        { rate := 1, fromCurrency := c, toCurrency := "USD",
          error := true }) ∧
    (∀ (rawTicker : String) (env : Env) (cdoc : CurrencyDoc) (nm : String)
        (pr fv : ℚ) (bsv : ℚ × ℚ) (sh : ℚ),
      tickerValid (jsToUpper rawTicker) = true →
      env.rateFeed = Except.error () →
      env.currencyDoc = Except.ok cdoc →
      Except.bind env.nameDoc (getCompanyName (jsToUpper rawTicker)) =
        Except.ok nm →
      getCurrentPrice env.priceEnv = Except.ok pr →
      Except.bind env.fcfDoc getFreeCashFlow = Except.ok fv →
      Except.bind env.bsDoc getBalanceSheetData = Except.ok bsv →
      Except.bind env.sharesDoc getSharesOutstanding = Except.ok sh →
      ∃ s : StockSnapshot, stockEndpoint rawTicker env = ApiResponse.success s
        ∧ s.exchangeRate = 1) := by
  refine ⟨?_, ?_, ?_⟩
  · intro feed
    simp [getExchangeRate]
  · intro c hc
    simp [getExchangeRate, hc]
  · intro rawTicker env cdoc nm pr fv bsv sh hv hr hc hnm hp hf hbs hsh
    cases hnd : env.nameDoc with
    | error e => rw [hnd] at hnm; exact absurd hnm (by simp [Except.bind])
    | ok ndoc =>
    rw [hnd] at hnm
    simp only [Except.bind] at hnm
    cases hfd : env.fcfDoc with
    | error e => rw [hfd] at hf; exact absurd hf (by simp [Except.bind])
    | ok fcfRows =>
    rw [hfd] at hf
    simp only [Except.bind] at hf
    cases hbd : env.bsDoc with
    | error e => rw [hbd] at hbs; exact absurd hbs (by simp [Except.bind])
    | ok bsRows =>
    rw [hbd] at hbs
    simp only [Except.bind] at hbs
    cases hsd : env.sharesDoc with
    | error e => rw [hsd] at hsh; exact absurd hsh (by simp [Except.bind])
    | ok sdoc =>
    rw [hsd] at hsh
    simp only [Except.bind] at hsh
    have hrate : ∀ c : String, (getExchangeRate c (Except.error ())).rate = 1 := by
      intro c
      by_cases h : c = "USD" <;> simp [getExchangeRate, h]
    have hbuild : ∃ s : StockSnapshot,
        buildSnapshot (jsToUpper rawTicker) env = Except.ok s ∧
        s.exchangeRate =
          (getExchangeRate (detectReportingCurrency cdoc) env.rateFeed).rate := by
      unfold buildSnapshot
      rw [hc, hnd, hp, hfd, hbd, hsd]
      simp only [hnm, hf, hbs, hsh]
      exact ⟨_, rfl, rfl⟩
    rcases hbuild with ⟨s, hb1, hb2⟩
    refine ⟨s, ?_, ?_⟩
    · simp [stockEndpoint, hv, hb1]
    · rw [hb2, hr]
      exact hrate _

/-- Witness for C6: the TWD resolver call on a dead feed yields rate 1 with
the error flag; the full request with a dead feed completes successfully
with exchangeRate 1. -/
theorem exchange_rate_soft_degrade_witness :
    getExchangeRate "TWD" (Except.error ()) =
      { rate := 1, fromCurrency := "TWD", toCurrency := "USD",
        error := true } ∧
    (∃ s : StockSnapshot, stockEndpoint "AAPL" envOk = ApiResponse.success s
      ∧ s.exchangeRate = 1) :=
  ⟨exchange_rate_soft_degrade.2.1 "TWD" (by decide),
   exchange_rate_soft_degrade.2.2 "AAPL" envOk cdocTWD "Acme Inc." 50 100
     (50, 20) 10 (by decide) rfl rfl (by decide) (by decide) (by decide)
     (by decide) (by decide)⟩

end DCFCalc

